import Mathlib

/-
Verification of the service worker in src/app/static/sw.js
(offline cache manager for "The Spackler Index" PWA).

The worker is embedded shallowly:

* `Response` and `Request` carry only the fields the worker inspects
  (`method`, `url`, parsed `pathname`, `mode`; a response is a status
  code plus a body).
* A cache store is an association list from URL key to response;
  `caches` at large is reduced to the list of existing store names
  where only names matter (the activate handler).
* Each event listener of the source becomes one Lean function that maps
  its inputs (the store contents, the request, the network outcome) to
  the observable outcome: the response handed to `respondWith`, the
  store reads and writes issued, the deletions issued, whether
  `skipWaiting` was called.
* JavaScript truthiness matters in the fetch handler: the
  stale-while-revalidate branch returns
  `cached || fetchPromise || caches.match('/static/offline.html')`,
  and a pending `Promise` object is truthy.  The type `JsVal` models
  the JavaScript values that can appear in that expression so that the
  embedding reproduces the source's short-circuiting exactly.
-/

set_option autoImplicit false

namespace SpacklerSW

/-- Source: `const CACHE_VERSION = 'v3';` -/
def CACHE_VERSION : String := "v3"

/-- Source: special `const CACHE_NAME = ` with `spackler-` and the version. -/
def CACHE_NAME : String := "spackler-" ++ CACHE_VERSION

/-- Source: the `urlsToCache` manifest array, verbatim. -/
def urlsToCache : List String :=
  [ "/",
    "/static/index.html",
    "/static/offline.html",
    "/manifest.json",
    "/static/manifest.json",
    "/static/images/apple-touch-icon.png",
    "/static/images/icon-192.png",
    "/static/images/icon-512.png",
    "/static/images/gopher.jpg",
    "/static/images/spackler-logo.jpg" ]

/-- Path of the designated offline fallback document. -/
def offlineUrl : String := "/static/offline.html"

/-- An HTTP response: the status code and the body bytes.  `clone()` in the
source produces an independently consumable copy with the same content; in
the embedding a response is pure data, so a clone is the value itself. -/
structure Response where
  status : Nat
  body : String
deriving DecidableEq, Repr

/-- The parts of a fetch-event request the worker inspects: the HTTP method,
the full URL (the cache key), the parsed `URL(...).pathname`, and the
request mode (`"navigate"` for top-level page loads). -/
structure Request where
  method : String
  url : String
  pathname : String
  mode : String
deriving DecidableEq, Repr

/-- A cache store: key to response association list, keyed by URL. -/
abbrev CacheStore := List (String × Response)

/-- Embedding of `cache.match(url)` / `caches.match(url)`: the first entry
stored under the key, if any. -/
def storeGet : CacheStore → String → Option Response
  | [], _ => none
  | (k, v) :: rest, url => if k = url then some v else storeGet rest url

/-- Embedding of the JavaScript `s.startsWith(p)` test used by the worker
(on `requestUrl.pathname` and on cache names): `p` is a prefix of `s`,
decided character by character. -/
def jsStartsWith (s p : String) : Bool :=
  p.data.isPrefixOf s.data

/-- JavaScript values that occur in the fetch handler's response
expressions: `undefined` (a cache miss), `null` (the failed fetch mapped
through `.catch(() => null)`), a `Response` object, or a `Promise` whose
eventual settled value is known.  A `Promise` object is an object, hence
truthy, whatever it will later resolve to. -/
inductive JsVal where
  | undefV : JsVal
  | nullV : JsVal
  | respV : Response → JsVal
  | promiseV : Option Response → JsVal
deriving DecidableEq, Repr

/-- JavaScript truthiness of a `JsVal`. -/
def JsVal.truthy : JsVal → Bool
  | .undefV => false
  | .nullV => false
  | .respV _ => true
  | .promiseV _ => true

/-- JavaScript `a || b`: `a` when `a` is truthy, else `b`. -/
def jsOr (a b : JsVal) : JsVal := if a.truthy then a else b

/-- A resolved `caches.match` result as a JavaScript value: a `Response`
on a hit, `undefined` on a miss. -/
def JsVal.ofMatch : Option Response → JsVal
  | some r => .respV r
  | none => .undefV

/-- What `respondWith` ultimately receives once the handed-in value is
awaited: a `Response`, or no response (`undefined`/`null`, which makes the
request fail with a network error). -/
def awaitVal : JsVal → Option Response
  | .undefV => none
  | .nullV => none
  | .respV r => some r
  | .promiseV o => o

/-- Outcome of the fetch listener for one event: either the listener
returned without calling `respondWith` (the request passes through to the
network untouched), or `respondWith` was called and settled on
`some` response or on no response (request failure). -/
inductive FetchAction where
  | passThrough : FetchAction
  | respond : Option Response → FetchAction
deriving DecidableEq, Repr

/-- Observable result of one run of the fetch listener: the action taken,
the URLs looked up in the cache, and the `cache.put` writes issued. -/
structure HandlerResult where
  action : FetchAction
  storeReads : List String
  storeWrites : List (String × Response)
deriving DecidableEq, Repr

/-- Embedding of the `fetch` event listener.  `store` is the content of
the current generation's cache store, `req` the intercepted request and
`net` the outcome of `fetch(event.request)` (`none` is a network failure).

Branches, in source order:
1. `if (event.request.method !== 'GET') return;`
2. `if (requestUrl.pathname.startsWith('/api/')) return;`
3. navigation (`event.request.mode === 'navigate'`): network first; on
   success put a clone and return the response; on failure
   `caches.match(event.request).then(cached => cached || caches.match('/static/offline.html'))`.
4. otherwise stale-while-revalidate: with `cached` the match result and
   `fetchPromise` the fetch chain (whose `.then` puts a clone and whose
   `.catch` resolves to `null`), the handler returns
   `cached || fetchPromise || caches.match('/static/offline.html')`.
   `fetchPromise` is a `Promise` object and therefore truthy, so the
   third disjunct is unreachable. -/
def fetchHandler (store : CacheStore) (req : Request) (net : Option Response) :
    HandlerResult :=
  if req.method ≠ "GET" then
    { action := .passThrough, storeReads := [], storeWrites := [] }
  else if jsStartsWith req.pathname "/api/" then
    { action := .passThrough, storeReads := [], storeWrites := [] }
  else if req.mode = "navigate" then
    match net with
    | some response =>
      { action := .respond (some response)
        storeReads := []
        storeWrites := [(req.url, response)] }
    | none =>
      match storeGet store req.url with
      | some cached =>
        { action := .respond (awaitVal (jsOr (JsVal.ofMatch (some cached))
            (.promiseV (storeGet store offlineUrl))))
          storeReads := [req.url]
          storeWrites := [] }
      | none =>
        { action := .respond (awaitVal (jsOr (JsVal.ofMatch none)
            (.promiseV (storeGet store offlineUrl))))
          storeReads := [req.url, offlineUrl]
          storeWrites := [] }
  else
    let cached := storeGet store req.url
    let fetchPromise : Option Response := net
    let writes : List (String × Response) :=
      match net with
      | some response => [(req.url, response)]
      | none => []
    { action := .respond (awaitVal (jsOr (jsOr (JsVal.ofMatch cached)
        (.promiseV fetchPromise)) (.promiseV (storeGet store offlineUrl))))
      storeReads := [req.url]
      storeWrites := writes }

/-- Embedding of `cache.addAll(urls)`: fetch every URL and store the
response, all-or-nothing — if any fetch fails the whole operation fails
and nothing is added. -/
def addAll (net : String → Option Response) : List String → Option CacheStore
  | [] => some []
  | u :: rest =>
    match net u with
    | none => none
    | some r => (addAll net rest).map (fun s => (u, r) :: s)

/-- Outcome of a successful install: the populated store for
`CACHE_NAME` and whether `self.skipWaiting()` was called. -/
structure InstallOutcome where
  store : CacheStore
  skipWaiting : Bool
deriving DecidableEq, Repr

/-- Embedding of the `install` event listener: open the `CACHE_NAME`
store, `addAll(urlsToCache)`, then `skipWaiting()`.  A rejection
anywhere in the chain skips the rest and fails the install
(`event.waitUntil` of a rejected promise). -/
def installHandler (net : String → Option Response) : Option InstallOutcome :=
  (addAll net urlsToCache).map (fun s => { store := s, skipWaiting := true })

/-- The deletion guard of the activate handler:
`cacheName !== CACHE_NAME && cacheName.startsWith('spackler-')`. -/
def isStale (cacheName : String) : Bool :=
  cacheName ≠ CACHE_NAME && jsStartsWith cacheName "spackler-"

/-- The deletions issued by the activate handler, with each deletion's
own outcome (`delOk`) recorded.  The source maps `caches.delete` over all
names synchronously before `Promise.all` awaits any of them, so every
stale name has a deletion issued regardless of how any other deletion
fares. -/
def activateIssuedDeletions (cacheNames : List String)
    (delOk : String → Bool) : List (String × Bool) :=
  cacheNames.filterMap (fun cacheName =>
    if isStale cacheName then some (cacheName, delOk cacheName) else none)

/-- The store names that remain once the activate handler has completed.
`event.waitUntil` resolves only if `Promise.all` of the deletions
resolved, i.e. every issued deletion succeeded, so on completion exactly
the non-stale names survive. -/
def afterActivate (cacheNames : List String) : List String :=
  cacheNames.filter (fun cacheName => !(isStale cacheName))

/-- Embedding of `cache.put(request, response)`: store the response under
the key, replacing any existing entry for that key. -/
def storePut : CacheStore → String → Response → CacheStore
  | [], url, r => [(url, r)]
  | (k, v) :: rest, url, r =>
    if k = url then (url, r) :: rest else (k, v) :: storePut rest url r

/-- Apply a list of issued `cache.put` writes to a store, in order. -/
def applyWrites (s : CacheStore) (ws : List (String × Response)) : CacheStore :=
  ws.foldl (fun acc w => storePut acc w.1 w.2) s

/- Concrete fixtures used to evaluate the handlers on explicit inputs. -/

/-- A stand-in content for the offline fallback document. -/
def offlineResp : Response := { status := 200, body := "offline page" }

/-- A store holding only the offline fallback document. -/
def c1Store : CacheStore := [(offlineUrl, offlineResp)]

/-- A non-navigation GET request for an image asset (not under `/api/`). -/
def c1Req : Request :=
  { method := "GET", url := "https://x.net/static/images/gopher.jpg",
    pathname := "/static/images/gopher.jpg", mode := "no-cors" }

/-- A non-GET request under the reserved API path. -/
def c4Req : Request :=
  { method := "POST", url := "https://x.net/api/save",
    pathname := "/api/save", mode := "cors" }

/-- A navigation (top-level page load) request. -/
def navReq : Request :=
  { method := "GET", url := "https://x.net/", pathname := "/",
    mode := "navigate" }

/-- A fresh network response for the home page. -/
def freshResp : Response := { status := 200, body := "home v2" }

/-- A previously cached response for the home page. -/
def cachedHome : Response := { status := 200, body := "home v1" }

/-- A store holding a cached response for the navigation request. -/
def navStore : CacheStore := [("https://x.net/", cachedHome)]

/-- A non-navigation GET request for a static asset. -/
def assetReq : Request :=
  { method := "GET", url := "https://x.net/static/images/icon-192.png",
    pathname := "/static/images/icon-192.png", mode := "no-cors" }

/-- A previously cached response for the asset request. -/
def cachedAsset : Response := { status := 200, body := "icon bytes v1" }

/-- A store holding a cached response for the asset request. -/
def assetStore : CacheStore := [(assetReq.url, cachedAsset)]

/-- A network response with an error status. -/
def resp500 : Response := { status := 500, body := "server error" }

/-- A generic successful network response. -/
def okResp : Response := { status := 200, body := "ok" }

/-- A network on which exactly one manifest fetch fails. -/
def badNet : String → Option Response :=
  fun u => if u = "/manifest.json" then none else some okResp

/-- A network on which every fetch succeeds. -/
def goodNet : String → Option Response := fun _ => some okResp

/-- A deletion-outcome assignment under which deleting the store
`spackler-v1` fails while every other deletion succeeds. -/
def delOkBad : String → Bool := fun n => decide (n ≠ "spackler-v1")

/- Helper lemmas. -/

/-- A write lands: after `storePut`, the key maps to the written value. -/
theorem storeGet_storePut_self (s : CacheStore) (url : String) (r : Response) :
    storeGet (storePut s url r) url = some r := by
  induction s with
  | nil => simp [storePut, storeGet]
  | cons hd tl ih =>
    obtain ⟨k, v⟩ := hd
    by_cases hk : k = url
    · simp [storePut, hk, storeGet]
    · simp [storePut, hk, storeGet, ih]

/-- `addAll` fails exactly when some fetch in the list fails. -/
theorem addAll_eq_none_iff (net : String → Option Response) (l : List String) :
    addAll net l = none ↔ ∃ u, u ∈ l ∧ net u = none := by
  induction l with
  | nil => simp [addAll]
  | cons hd tl ih =>
    cases hnet : net hd with
    | none => simp [addAll, hnet]
    | some r =>
      cases htl : addAll net tl with
      | none =>
        simp only [addAll, hnet, htl, Option.map_none]
        constructor
        · intro _
          obtain ⟨u, hu, hnu⟩ := ih.mp htl
          exact ⟨u, List.mem_cons_of_mem hd hu, hnu⟩
        · intro _; rfl
      | some s =>
        simp only [addAll, hnet, htl, Option.map_some]
        constructor
        · intro h; exact absurd h (by simp)
        · rintro ⟨u, hu, hnu⟩
          rcases List.mem_cons.mp hu with rfl | hu
          · exact absurd hnet (by simp [hnu])
          · exact absurd (ih.mpr ⟨u, hu, hnu⟩) (by simp [htl])

/- Claim theorems. -/

/-- C1: the claim says a non-navigation GET with no cached value whose
network fetch fails is answered with the offline fallback document.  On
the code this fails: in `cached || fetchPromise || caches.match(offlineUrl)`
the `fetchPromise` object is truthy, so when it resolves to `null` the
handler responds with no response at all and the request fails, even
though the offline document is present in the store.  This theorem
evaluates the embedded handler at such an input. -/
theorem c1_swr_offline_fallback_unreachable :
    c1Req.method = "GET" ∧
    jsStartsWith c1Req.pathname "/api/" = false ∧
    c1Req.mode ≠ "navigate" ∧
    storeGet c1Store c1Req.url = none ∧
    storeGet c1Store offlineUrl = some offlineResp ∧
    (fetchHandler c1Store c1Req none).action = .respond none := by decide

/-- C4: for a non-GET request, or a GET request whose path starts with
`/api/`, the fetch handler returns without `respondWith` and issues no
store reads and no store writes. -/
theorem c4_non_get_or_api_pass_through (store : CacheStore) (req : Request)
    (net : Option Response)
    (h : req.method ≠ "GET" ∨ jsStartsWith req.pathname "/api/" = true) :
    fetchHandler store req net =
      { action := .passThrough, storeReads := [], storeWrites := [] } := by
  rcases h with h | h
  · simp [fetchHandler, h]
  · by_cases hm : req.method = "GET"
    · simp [fetchHandler, hm, h]
    · simp [fetchHandler, hm]

/-- Witness for C4 at a POST request under `/api/`. -/
theorem c4_witness :
    fetchHandler [] c4Req none =
      { action := .passThrough, storeReads := [], storeWrites := [] } :=
  c4_non_get_or_api_pass_through [] c4Req none (Or.inl (by decide))

/-- C6: for a navigation request with a successful network fetch, the
handler responds with the network response itself and writes a copy of it
into the store under the request's key. -/
theorem c6_navigation_network_success (store : CacheStore) (req : Request)
    (response : Response)
    (hm : req.method = "GET")
    (ha : jsStartsWith req.pathname "/api/" = false)
    (hn : req.mode = "navigate") :
    fetchHandler store req (some response) =
      { action := .respond (some response), storeReads := [],
        storeWrites := [(req.url, response)] } := by
  simp [fetchHandler, hm, ha, hn]

/-- Witness for C6 at the concrete navigation request. -/
theorem c6_witness :
    fetchHandler [] navReq (some freshResp) =
      { action := .respond (some freshResp), storeReads := [],
        storeWrites := [(navReq.url, freshResp)] } :=
  c6_navigation_network_success [] navReq freshResp rfl (by decide) rfl

/-- C10: on every cacheable path (navigation and stale-while-revalidate
alike), any resolved network response is written to the store with no
inspection of its HTTP status: the write is issued for every `response`,
whatever `response.status` is. -/
theorem c10_cache_write_ignores_status (store : CacheStore) (req : Request)
    (response : Response)
    (hm : req.method = "GET")
    (ha : jsStartsWith req.pathname "/api/" = false) :
    (req.url, response) ∈ (fetchHandler store req (some response)).storeWrites := by
  by_cases hn : req.mode = "navigate"
  · simp [fetchHandler, hm, ha, hn]
  · simp [fetchHandler, hm, ha, hn]

/-- Witness for C10: a 500-status response is written to the store. -/
theorem c10_witness :
    (assetReq.url, resp500) ∈ (fetchHandler [] assetReq (some resp500)).storeWrites :=
  c10_cache_write_ignores_status [] assetReq resp500 rfl (by decide)

/-- C2: after the activate handler completes (so every issued deletion
resolved), a name survives with the `spackler-` naming prefix exactly
when it is the current generation's store name — given that the current
store exists, i.e. its name is among the enumerated names. -/
theorem c2_after_activate_exactly_current (cacheNames : List String)
    (h : CACHE_NAME ∈ cacheNames) (n : String) :
    (n ∈ afterActivate cacheNames ∧ jsStartsWith n "spackler-" = true) ↔
      n = CACHE_NAME := by
  constructor
  · rintro ⟨hn, hp⟩
    rw [afterActivate, List.mem_filter] at hn
    rcases hn with ⟨-, hns⟩
    by_contra hne
    simp [isStale, hne, hp] at hns
  · rintro rfl
    refine ⟨?_, by decide⟩
    rw [afterActivate, List.mem_filter]
    exact ⟨h, by simp [isStale]⟩

/-- Witness for C2 on a concrete name set containing the current store,
a stale generation and an unrelated store. -/
theorem c2_witness :
    ("spackler-v1" ∈ afterActivate ["spackler-v3", "spackler-v1", "mycache"] ∧
      jsStartsWith "spackler-v1" "spackler-" = true) ↔
      "spackler-v1" = CACHE_NAME :=
  c2_after_activate_exactly_current ["spackler-v3", "spackler-v1", "mycache"]
    (by decide) "spackler-v1"

/-- C8: a deletion is issued for a name exactly when the name is
enumerated and stale, and the recorded outcome is that deletion's own;
the issuance is a pointwise function of the name alone, so one failed
deletion never prevents the deletion of any other stale store from being
attempted, in any enumeration order. -/
theorem c8_deletion_issuance_independent (cacheNames : List String)
    (delOk : String → Bool) (n : String) (b : Bool) :
    (n, b) ∈ activateIssuedDeletions cacheNames delOk ↔
      (n ∈ cacheNames ∧ isStale n = true ∧ b = delOk n) := by
  rw [activateIssuedDeletions, List.mem_filterMap]
  constructor
  · rintro ⟨a, ha, hab⟩
    by_cases hs : isStale a
    · simp only [hs, if_pos] at hab
      obtain ⟨rfl, rfl⟩ := Prod.mk.injEq .. ▸ Option.some.inj hab
      exact ⟨ha, hs, rfl⟩
    · simp [hs] at hab
  · rintro ⟨hn, hs, rfl⟩
    exact ⟨n, hn, by simp [hs]⟩

/-- Witness for C8: with the deletion of `spackler-v1` failing, a
deletion of `spackler-v2` is still issued. -/
theorem c8_witness :
    ("spackler-v2", true) ∈
      activateIssuedDeletions ["spackler-v1", "spackler-v2"] delOkBad :=
  (c8_deletion_issuance_independent ["spackler-v1", "spackler-v2"] delOkBad
    "spackler-v2" true).mpr ⟨by decide, by decide, by decide⟩

/-- C9: the activate handler issues deletions only for names that carry
the `spackler-` naming prefix and differ from the current store name;
every enumerated name without the prefix survives activation. -/
theorem c9_unrelated_stores_untouched (cacheNames : List String)
    (delOk : String → Bool) :
    (∀ n b, (n, b) ∈ activateIssuedDeletions cacheNames delOk →
        jsStartsWith n "spackler-" = true ∧ n ≠ CACHE_NAME) ∧
    (∀ n, n ∈ cacheNames → jsStartsWith n "spackler-" = false →
        n ∈ afterActivate cacheNames) := by
  constructor
  · intro n b hmem
    rw [activateIssuedDeletions, List.mem_filterMap] at hmem
    rcases hmem with ⟨a, _, hab⟩
    by_cases hs : isStale a
    · simp only [hs, if_pos] at hab
      obtain ⟨rfl, -⟩ := Prod.mk.injEq .. ▸ Option.some.inj hab
      rw [isStale, Bool.and_eq_true, decide_eq_true_iff] at hs
      exact ⟨hs.2, hs.1⟩
    · simp [hs] at hab
  · intro n hn hp
    rw [afterActivate, List.mem_filter]
    exact ⟨hn, by simp [isStale, hp]⟩

/-- Witness for C9: an unrelated store name survives activation. -/
theorem c9_witness :
    "mycache" ∈ afterActivate ["spackler-v1", "mycache"] :=
  (c9_unrelated_stores_untouched ["spackler-v1", "mycache"]
    (fun _ => true)).2 "mycache" (by decide) (by decide)

/-- C3: for a navigation request whose network fetch fails, the handler
responds with the stored response for that exact request if one exists;
otherwise with whatever the store holds for the offline fallback
document; and with no response at all (request failure) when neither
exists. -/
theorem c3_navigation_network_failure (store : CacheStore) (req : Request)
    (hm : req.method = "GET")
    (ha : jsStartsWith req.pathname "/api/" = false)
    (hn : req.mode = "navigate") :
    (∀ c, storeGet store req.url = some c →
        (fetchHandler store req none).action = .respond (some c)) ∧
    (storeGet store req.url = none →
        (fetchHandler store req none).action =
          .respond (storeGet store offlineUrl)) ∧
    (storeGet store req.url = none → storeGet store offlineUrl = none →
        (fetchHandler store req none).action = .respond none) := by
  refine ⟨?_, ?_, ?_⟩
  · intro c hc
    simp [fetchHandler, hm, ha, hn, hc, jsOr, JsVal.ofMatch, JsVal.truthy,
      awaitVal]
  · intro hc
    simp [fetchHandler, hm, ha, hn, hc, jsOr, JsVal.ofMatch, JsVal.truthy,
      awaitVal]
  · intro hc ho
    simp [fetchHandler, hm, ha, hn, hc, ho, jsOr, JsVal.ofMatch, JsVal.truthy,
      awaitVal]

/-- Witness for C3: the cached home page is served when the navigation
fetch fails. -/
theorem c3_witness :
    (fetchHandler navStore navReq none).action = .respond (some cachedHome) :=
  (c3_navigation_network_failure navStore navReq rfl (by decide) rfl).1
    cachedHome (by decide)

/-- C5: the install is all-or-nothing.  If any manifest fetch fails, the
install produces no outcome at all — no populated store and no
`skipWaiting` call; if every manifest fetch succeeds, it produces a
populated store with `skipWaiting` called. -/
theorem c5_install_all_or_nothing (net : String → Option Response) :
    ((∃ u, u ∈ urlsToCache ∧ net u = none) → installHandler net = none) ∧
    ((∀ u, u ∈ urlsToCache → net u ≠ none) →
        ∃ s, installHandler net = some { store := s, skipWaiting := true }) := by
  constructor
  · intro h
    rw [installHandler, (addAll_eq_none_iff net urlsToCache).mpr h]
    rfl
  · intro h
    cases ha : addAll net urlsToCache with
    | none =>
      obtain ⟨u, hu, hnu⟩ := (addAll_eq_none_iff net urlsToCache).mp ha
      exact absurd hnu (h u hu)
    | some s => exact ⟨s, by rw [installHandler, ha]; rfl⟩

/-- Witness for C5: a single failing manifest fetch aborts the install,
and an all-successful network yields a ready store with `skipWaiting`. -/
theorem c5_witness :
    installHandler badNet = none ∧
    ∃ s, installHandler goodNet = some { store := s, skipWaiting := true } :=
  ⟨(c5_install_all_or_nothing badNet).1
      ⟨"/manifest.json", by decide, by decide⟩,
    (c5_install_all_or_nothing goodNet).2 (fun u _ => by simp [goodNet])⟩

/-- C7: for a non-navigation GET with a cached value present, the handler
responds with the cached value whatever the network outcome is (so the
response never depends on the concurrent fetch); and when the background
fetch resolves successfully, the issued writes are exactly the fresh
response under the request's key, after which the store holds the fresh
response there. -/
theorem c7_swr_cached_immediate_and_refresh (store : CacheStore)
    (req : Request) (c : Response)
    (hm : req.method = "GET")
    (ha : jsStartsWith req.pathname "/api/" = false)
    (hn : req.mode ≠ "navigate")
    (hc : storeGet store req.url = some c) :
    (∀ net, (fetchHandler store req net).action = .respond (some c)) ∧
    (∀ fresh,
        (fetchHandler store req (some fresh)).storeWrites = [(req.url, fresh)] ∧
        storeGet (applyWrites store
          (fetchHandler store req (some fresh)).storeWrites) req.url =
            some fresh) := by
  constructor
  · intro net
    simp [fetchHandler, hm, ha, hn, hc, jsOr, JsVal.ofMatch, JsVal.truthy,
      awaitVal]
  · intro fresh
    have hw : (fetchHandler store req (some fresh)).storeWrites =
        [(req.url, fresh)] := by
      simp [fetchHandler, hm, ha, hn]
    refine ⟨hw, ?_⟩
    rw [hw]
    exact storeGet_storePut_self store req.url fresh

/-- Witness for C7: the cached asset is returned on network failure, and
a successful revalidation rewrites the entry. -/
theorem c7_witness :
    (fetchHandler assetStore assetReq none).action =
      .respond (some cachedAsset) :=
  (c7_swr_cached_immediate_and_refresh assetStore assetReq cachedAsset rfl
    (by decide) (by decide) (by decide)).1 none

end SpacklerSW
